import Mathlib

/-!
Shallow embedding of `scripts/login.js` (lunes-host repository).

The script drives a headless browser through a fixed login / server /
console / restart / command workflow and reports milestones to Telegram.
We embed it as a pure step-indexed program over two oracles:

* `World` — what the remote page shows (locator counts, the URL after
  submission) and which awaited Playwright operation, if any, rejects
  (`failAt` names the index, in execution order, of the first awaited
  fallible operation that throws).
* `NotifyWorld` — the Telegram-related environment (`TELEGRAM_BOT_TOKEN`,
  `TELEGRAM_CHAT_ID`), which delivery sub-steps fail, and the state of the
  filesystem as seen by `fs.existsSync` for paths the run did not write.

The run produces an exit code (the value of `process.exitCode` when the
process ends; `1` for an uncaught throw of `envOrThrow`) and a trace of
events: page actions, screenshot file writes, `notifyTelegram`
invocations, the notifier's own outbound Telegram calls, and the
`context.close()` / `browser.close()` calls of the `finally` block.
Exception messages of rejected operations are modelled by fixed strings
(their real text is environment dependent and nothing branches on it).
The working directory is modelled as initially empty: a screenshot file
exists exactly when this run wrote it.
-/

/-- JavaScript string truthiness on an optional environment value:
`undefined` and the empty string are falsy (`!v` in the source). -/
def falsyS : Option String → Bool
  | none => true
  | some s => s.isEmpty

/-- `const LOGIN_URL = 'https://ctrl.lunes.host/auth/login'` (line 5). -/
def LOGIN_URL : String := "https://ctrl.lunes.host/auth/login"

/-- Character-list prefix test (used to model the regex search). -/
def startsWithChars : List Char → List Char → Bool
  | [], _ => true
  | _ :: _, [] => false
  | a :: as, b :: bs => a == b && startsWithChars as bs

/-- Does `pat` occur as a contiguous run inside the second list? -/
def containsChars (pat : List Char) : List Char → Bool
  | [] => startsWithChars pat []
  | b :: bs => startsWithChars pat (b :: bs) || containsChars pat bs

/-- Lower-cased character list of a string. -/
def lowerChars (s : String) : List Char := s.data.map Char.toLower

/-- Line 108: `/\/auth\/login/i.test(url)` — case-insensitive search for
the literal `/auth/login` anywhere in the URL. -/
def stillOnLogin (url : String) : Bool :=
  containsChars (lowerChars "/auth/login") (lowerChars url)

/-- One outbound/log effect of `notifyTelegram` (lines 8–46). -/
inductive TEffect where
  /-- Line 13: warning log when token or chat id is missing/empty. -/
  | warnSkip
  /-- Line 24: `fetch(.../sendMessage, ...)` with chat id and text body. -/
  | sendText (chatId text : String)
  /-- Line 41: `fetch(.../sendPhoto, ...)` with chat id and caption. -/
  | sendPhoto (chatId caption : String)
  /-- Line 44: warning log of the caught delivery error. -/
  | warnFail (m : String)
  deriving DecidableEq, Repr

/-- Oracle for one `notifyTelegram` call: Telegram env vars, which of the
three fallible delivery sub-steps rejects, the timestamp string, and
`fs.existsSync` for the supplied screenshot path. -/
structure NotifyWorld where
  token : Option String
  chatId : Option String
  textSendFails : Bool
  readFileFails : Bool
  photoSendFails : Bool
  now : String
  fileExists : String → Bool

/-- Lines 17–22: compose the message text; `filter(Boolean)` drops the
empty entry produced when `msg` is falsy. -/
def composeText (ok : Bool) (stage msg now : String) : String :=
  String.intercalate "\n"
    (([ "🔔 Lunes 自动操作：" ++ (if ok then "✅ 成功" else "❌ 失败"),
        "阶段：" ++ stage,
        if msg.isEmpty then "" else "信息：" ++ msg,
        "时间：" ++ now ]).filter (fun s => !s.isEmpty))

/-- Body of `notifyTelegram` up to (but not including) the `catch`
(lines 10–42): returns the effects performed and `some m` when an awaited
delivery step rejected with (model) message `m`, `none` on normal
completion.  The `sendPhoto` branch runs only when a screenshot path was
supplied and `fs.existsSync` holds for it (line 35). -/
def notifyBody (nw : NotifyWorld) (ok : Bool) (stage msg : String)
    (sp : Option String) : List TEffect × Option String :=
  if falsyS nw.token || falsyS nw.chatId then
    ([TEffect.warnSkip], none)
  else
    let chat := nw.chatId.getD ""
    let text := composeText ok stage msg nw.now
    if nw.textSendFails then
      ([TEffect.sendText chat text], some "sendMessage failed")
    else
      let sent := [TEffect.sendText chat text]
      match sp with
      | none => (sent, none)
      | some p =>
        if nw.fileExists p then
          if nw.readFileFails then (sent, some "readFileSync failed")
          else
            let both := sent ++
              [TEffect.sendPhoto chat ("Lunes 自动操作截图（" ++ stage ++ "）")]
            if nw.photoSendFails then (both, some "sendPhoto failed")
            else (both, none)
        else (sent, none)

/-- `notifyTelegram` as the caller sees it (lines 8–46): the `catch`
turns any internal rejection into a `warnFail` log and a normal return. -/
def notifyTelegram (nw : NotifyWorld) (ok : Bool) (stage msg : String)
    (sp : Option String) : List TEffect :=
  match notifyBody nw ok stage msg sp with
  | (effs, none) => effs
  | (effs, some m) => effs ++ [TEffect.warnFail m]

/-- The two required panel credentials (lines 55–56); `none` models an
unset environment variable, `some ""` one set to the empty string. -/
structure EnvVars where
  lunesUsername : Option String
  lunesPassword : Option String

/-- Oracle for one run of `main`: locator counts, the URL after
submission, the best-effort error text (`none` models `innerText()`
rejecting, swallowed into `''` by the `.catch` on line 160), the index of
the first awaited fallible operation that rejects (`none` = none does),
and whether the `page.screenshot` inside the `catch` (line 170, its own
failure swallowed) succeeds. -/
structure World where
  challengeCount : Nat
  urlAfterSubmit : String
  successHintCount : Nat
  errorMsgCount : Nat
  errorInnerText : Option String
  failAt : Option Nat
  errorShotOk : Bool

/-- A runner-level action appearing in the trace. -/
inductive Act where
  | goto (url : String)
  /-- `page.screenshot({ path, fullPage: true })` — writes the file. -/
  | screenshotW (path : String)
  /-- An invocation of `notifyTelegram` with its arguments
  (`ok`, `stage`, `msg`, `screenshotPath`). -/
  | notify (ok : Bool) (stage msg : String) (sp : Option String)
  /-- An outbound/log effect performed inside `notifyTelegram`. -/
  | tg (e : TEffect)
  | fillField (field value : String)
  | clickSubmit
  | clickServer
  | clickConsole
  | clickRestart
  | sleep (ms : Nat)
  | typeCommand (s : String)
  | pressEnter
  deriving DecidableEq, Repr

/-- A trace event: an action inside the `try`/`catch`, or one of the two
release calls of the `finally` block (lines 174–175). -/
inductive Event where
  | act (a : Act)
  | closeContext
  | closeBrowser
  deriving DecidableEq, Repr

/-- Mutable state threaded through the embedded `main`: trace so far,
screenshot files written so far, the index of the next awaited fallible
operation, and `process.exitCode`. -/
structure RunSt where
  trace : List Act
  files : List String
  counter : Nat
  exit : Option Nat
  deriving Repr

/-- Result of a block of the `try` body: normal completion (including the
early `return`s) or a thrown exception with the state at the throw. -/
inductive Outcome where
  | done (s : RunSt)
  | thrown (s : RunSt) (msg : String)

/-- Sequencing: a thrown exception skips the rest of the `try` body. -/
def Outcome.andThen : Outcome → (RunSt → Outcome) → Outcome
  | .done s, f => f s
  | .thrown s _m, _ => .thrown s _m

/-- One awaited Playwright operation inside the `try` body.  It rejects
exactly when `w.failAt` names its execution index; on success it records
the given action (if any) and registers the written file (for
screenshots). -/
def fallibleOp (w : World) (a : Option Act) (file? : Option String)
    (s : RunSt) : Outcome :=
  if w.failAt = some s.counter then
    .thrown { s with counter := s.counter + 1 } "playwright step failed"
  else
    .done { s with
      counter := s.counter + 1,
      trace := s.trace ++ a.toList,
      files := s.files ++ file?.toList }

/-- A call of `notifyTelegram` from `main`: never throws, and sees the
files this run has written so far as the existing files. -/
def notifyOp (nw : NotifyWorld) (ok : Bool) (stage msg : String)
    (sp : Option String) (s : RunSt) : Outcome :=
  let effs := notifyTelegram
    { nw with fileExists := fun p => s.files.contains p } ok stage msg sp
  .done { s with
    trace := s.trace ++ [Act.notify ok stage msg sp] ++ effs.map Act.tg }

/-- `page.waitForTimeout` (lines 137 and 146): a pure delay. -/
def sleepOp (ms : Nat) (s : RunSt) : Outcome :=
  .done { s with trace := s.trace ++ [Act.sleep ms] }

/-- `process.exitCode = n`. -/
def setExitOp (n : Nat) (s : RunSt) : Outcome :=
  .done { s with exit := some n }

/-- Lines 75–79: challenge detected — screenshot, failure notification,
`process.exitCode = 2`, `return`. -/
def challengeBranch (w : World) (nw : NotifyWorld) (s : RunSt) : Outcome :=
  (fallibleOp w (some (Act.screenshotW "./01-human-check.png"))
      (some "./01-human-check.png") s).andThen fun s =>
  (notifyOp nw false "打开登录页" "检测到人机验证页面"
      (some "./01-human-check.png") s).andThen fun s =>
  setExitOp 2 s

/-- Lines 111–154: the downstream success sequence —
server page → console → restart → command → completion. -/
def successBranch (url : String) (w : World) (nw : NotifyWorld)
    (s : RunSt) : Outcome :=
  (notifyOp nw true "登录成功" ("当前 URL：" ++ url)
      (some "./03-after-submit.png") s).andThen fun s =>
  (fallibleOp w none none s).andThen fun s =>  -- serverLink.waitFor (line 115)
  (fallibleOp w (some Act.clickServer) none s).andThen fun s =>
  (fallibleOp w none none s).andThen fun s =>  -- waitForLoadState (line 118)
  (fallibleOp w (some (Act.screenshotW "./04-server-page.png"))
      (some "./04-server-page.png") s).andThen fun s =>
  (notifyOp nw true "进入服务器页面" "已成功打开服务器详情"
      (some "./04-server-page.png") s).andThen fun s =>
  (fallibleOp w none none s).andThen fun s =>  -- consoleMenu.waitFor (line 125)
  (fallibleOp w (some Act.clickConsole) none s).andThen fun s =>
  (fallibleOp w none none s).andThen fun s =>  -- waitForLoadState (line 128)
  (fallibleOp w none none s).andThen fun s =>  -- restartBtn.waitFor (line 132)
  (fallibleOp w (some Act.clickRestart) none s).andThen fun s =>
  (notifyOp nw true "点击 Restart" "VPS 正在重启" none s).andThen fun s =>
  (sleepOp 10000 s).andThen fun s =>           -- waitForTimeout (line 137)
  (fallibleOp w none none s).andThen fun s =>  -- commandInput.waitFor (line 141)
  (fallibleOp w (some (Act.typeCommand "working properly")) none s).andThen fun s =>
  (fallibleOp w (some Act.pressEnter) none s).andThen fun s =>
  (sleepOp 5000 s).andThen fun s =>            -- waitForTimeout (line 146)
  (fallibleOp w (some (Act.screenshotW "./05-command-executed.png"))
      (some "./05-command-executed.png") s).andThen fun s =>
  (notifyOp nw true "命令执行完成" "restart.sh 已执行"
      (some "./05-command-executed.png") s).andThen fun s =>
  setExitOp 0 s

/-- Lines 159–160: the best-effort error message — empty when the
locale-tolerant error locator matches nothing or `innerText()` rejects —
and line 164's choice of notification text built from it. -/
def failureMsg (w : World) : String :=
  let errorMsg := if 0 < w.errorMsgCount then w.errorInnerText.getD "" else ""
  if errorMsg.isEmpty then "仍在登录页" else "疑似失败（" ++ errorMsg ++ "）"

/-- Lines 157–167: still on the login page — best-effort error message
extraction, failure notification, `process.exitCode = 1`. -/
def failureBranch (w : World) (nw : NotifyWorld) (s : RunSt) : Outcome :=
  (fallibleOp w none none s).andThen fun s =>  -- errorMsgNode.count (line 159)
  (notifyOp nw false "登录失败" (failureMsg w)
      (some "./03-after-submit.png") s).andThen fun s =>
  setExitOp 1 s

/-- Lines 103–167: post-submission screenshot, success test
`(!stillOnLogin || successHint > 0)`, branch. -/
def afterSubmit (w : World) (nw : NotifyWorld) (s : RunSt) : Outcome :=
  (fallibleOp w (some (Act.screenshotW "./03-after-submit.png"))
      (some "./03-after-submit.png") s).andThen fun s =>
  (fallibleOp w none none s).andThen fun s =>  -- successHint count (line 107)
  if stillOnLogin w.urlAfterSubmit = false ∨ 0 < w.successHintCount then
    successBranch w.urlAfterSubmit w nw s
  else
    failureBranch w nw s

/-- Lines 83–100: locate and fill the credential fields, pre-submission
screenshot, submit (the network-idle wait's failure is swallowed by its
`.catch`, so the `Promise.all` is fallible only through the click). -/
def formAndSubmit (username password : String) (w : World)
    (nw : NotifyWorld) (s : RunSt) : Outcome :=
  (fallibleOp w none none s).andThen fun s =>  -- userInput.waitFor (line 85)
  (fallibleOp w none none s).andThen fun s =>  -- passInput.waitFor (line 86)
  (fallibleOp w (some (Act.fillField "username" username)) none s).andThen fun s =>
  (fallibleOp w (some (Act.fillField "password" password)) none s).andThen fun s =>
  (fallibleOp w none none s).andThen fun s =>  -- loginBtn.waitFor (line 92)
  (fallibleOp w (some (Act.screenshotW "./02-before-submit.png"))
      (some "./02-before-submit.png") s).andThen fun s =>
  (fallibleOp w (some Act.clickSubmit) none s).andThen fun s =>
  afterSubmit w nw s

/-- The whole `try` body (lines 68–167). -/
def mainTry (username password : String) (w : World) (nw : NotifyWorld)
    (s : RunSt) : Outcome :=
  (fallibleOp w (some (Act.goto LOGIN_URL)) none s).andThen fun s =>
  (fallibleOp w none none s).andThen fun s =>  -- humanCheckText.count (line 74)
  if 0 < w.challengeCount then challengeBranch w nw s
  else formAndSubmit username password w nw s

/-- The `catch` block (lines 168–172): best-effort screenshot (its own
failure swallowed), failure notification whose screenshot path is
supplied only when the file exists, `process.exitCode = 1`. -/
def catchHandler (w : World) (nw : NotifyWorld) (m : String)
    (s : RunSt) : RunSt :=
  let s :=
    if w.errorShotOk then
      { s with trace := s.trace ++ [Act.screenshotW "./99-error.png"],
               files := s.files ++ ["./99-error.png"] }
    else s
  let sp := if s.files.contains "./99-error.png"
    then some "./99-error.png" else none
  let effs := notifyTelegram
    { nw with fileExists := fun p => s.files.contains p } false "异常" m sp
  { s with
    trace := s.trace ++ [Act.notify false "异常" m sp] ++ effs.map Act.tg,
    exit := some 1 }

/-- Normal completion passes through; a thrown exception is handled by
the `catch` block. -/
def settle (w : World) (nw : NotifyWorld) : Outcome → RunSt
  | .done s => s
  | .thrown s m => catchHandler w nw m s

/-- Initial run state: empty trace, no files written, first awaited
operation has index `0`, `process.exitCode` unset. -/
def initSt : RunSt := { trace := [], files := [], counter := 0, exit := none }

/-- The whole program (lines 54–179): `envOrThrow` for both credentials
(a missing or empty variable throws before the browser is launched, the
uncaught rejection ends the process with code 1 and an empty trace);
otherwise the `try`/`catch` body runs and the `finally` block closes the
context and the browser.  Result: final process exit code (`process.exitCode`
defaulting to `0`) and the event trace. -/
def runMain (e : EnvVars) (w : World) (nw : NotifyWorld) :
    Nat × List Event :=
  if falsyS e.lunesUsername || falsyS e.lunesPassword then (1, [])
  else
    let s1 := settle w nw
      (mainTry (e.lunesUsername.getD "") (e.lunesPassword.getD "") w nw initSt)
    (s1.exit.getD 0,
      s1.trace.map Event.act ++ [Event.closeContext, Event.closeBrowser])

/-- Final process exit code of a run. -/
def runExit (e : EnvVars) (w : World) (nw : NotifyWorld) : Nat :=
  (runMain e w nw).1

/-- Event trace of a run. -/
def runTrace (e : EnvVars) (w : World) (nw : NotifyWorld) : List Event :=
  (runMain e w nw).2

/-- The action carried by an event, if any. -/
def Event.toAct? : Event → Option Act
  | .act a => some a
  | _ => none

/-- Actions of a trace (the `finally` close events carry none). -/
def actsOf (tr : List Event) : List Act := tr.filterMap Event.toAct?

/-- Is this action an outbound/log effect of the notifier? -/
def Act.isTg : Act → Bool
  | .tg _ => true
  | _ => false

/-- Runner-level actions of a trace: everything except the notifier's
own outbound/log effects. -/
def coreActsOf : List Event → List Act
  | [] => []
  | Event.act (Act.tg _) :: tr => coreActsOf tr
  | Event.act a :: tr => a :: coreActsOf tr
  | Event.closeContext :: tr => coreActsOf tr
  | Event.closeBrowser :: tr => coreActsOf tr

/-- The screenshot path written by this action, if any. -/
def Act.shotPath? : Act → Option String
  | .screenshotW p => some p
  | _ => none

/-- Screenshot files written along a trace, in order. -/
def shotsOf (tr : List Event) : List String :=
  (actsOf tr).filterMap Act.shotPath?

/-- The `notifyTelegram` arguments of this action, if it is a notifier
invocation. -/
def Act.notifyArgs? : Act → Option (Bool × String × String × Option String)
  | .notify ok stage msg sp => some (ok, stage, msg, sp)
  | _ => none

/-- The `notifyTelegram` invocations of a trace, in order. -/
def notifiesOf (tr : List Event) :
    List (Bool × String × String × Option String) :=
  (actsOf tr).filterMap Act.notifyArgs?

/-- Is this notifier effect an outbound HTTP call? -/
def TEffect.isOutbound : TEffect → Bool
  | .sendText _ _ => true
  | .sendPhoto _ _ => true
  | _ => false

/-- The outbound HTTP calls among a notifier effect list. -/
def outboundOf (effs : List TEffect) : List TEffect :=
  effs.filter TEffect.isOutbound

/-- Expected runner-level action sequence of an exception-free successful
run (lines 70–154 of the source). -/
def successCoreList (e : EnvVars) (w : World) : List Act :=
  [Act.goto LOGIN_URL,
   Act.fillField "username" (e.lunesUsername.getD ""),
   Act.fillField "password" (e.lunesPassword.getD ""),
   Act.screenshotW "./02-before-submit.png",
   Act.clickSubmit,
   Act.screenshotW "./03-after-submit.png",
   Act.notify true "登录成功" ("当前 URL：" ++ w.urlAfterSubmit)
     (some "./03-after-submit.png"),
   Act.clickServer,
   Act.screenshotW "./04-server-page.png",
   Act.notify true "进入服务器页面" "已成功打开服务器详情" (some "./04-server-page.png"),
   Act.clickConsole,
   Act.clickRestart,
   Act.notify true "点击 Restart" "VPS 正在重启" none,
   Act.sleep 10000,
   Act.typeCommand "working properly",
   Act.pressEnter,
   Act.sleep 5000,
   Act.screenshotW "./05-command-executed.png",
   Act.notify true "命令执行完成" "restart.sh 已执行" (some "./05-command-executed.png")]

/-- Expected runner-level action sequence of an exception-free failed
login (lines 70–104 and 157–167 of the source). -/
def failureCoreList (e : EnvVars) (w : World) : List Act :=
  [Act.goto LOGIN_URL,
   Act.fillField "username" (e.lunesUsername.getD ""),
   Act.fillField "password" (e.lunesPassword.getD ""),
   Act.screenshotW "./02-before-submit.png",
   Act.clickSubmit,
   Act.screenshotW "./03-after-submit.png",
   Act.notify false "登录失败" (failureMsg w) (some "./03-after-submit.png")]

/-- Expected runner-level action sequence of an exception-free run that
hits the human-verification challenge (lines 70–80 of the source). -/
def challengeCoreList : List Act :=
  [Act.goto LOGIN_URL,
   Act.screenshotW "./01-human-check.png",
   Act.notify false "打开登录页" "检测到人机验证页面" (some "./01-human-check.png")]

/-- A concrete environment with both credentials set. -/
def cEnv : EnvVars := ⟨some "u", some "p"⟩

/-- A concrete notifier oracle: token and chat id set and non-empty, no
delivery failures, no pre-existing files. -/
def cNW : NotifyWorld := ⟨some "t", some "c", false, false, false, "T", fun _ => false⟩

/-- A concrete notifier oracle where the text-send `fetch` rejects. -/
def nwTextFail : NotifyWorld :=
  ⟨some "t", some "c", true, false, false, "T", fun _ => false⟩

/-- A concrete notifier oracle with every supplied screenshot file
existing on disk and no delivery failures. -/
def nwPhotoOk : NotifyWorld :=
  ⟨some "t", some "c", false, false, false, "T", fun _ => true⟩

/-- A concrete notifier oracle whose bot token is set but empty. -/
def nwEmptyToken : NotifyWorld :=
  ⟨some "", some "c", false, false, false, "T", fun _ => false⟩

/-- A concrete page oracle: no challenge, submission redirects away from
the login path, no operation rejects. -/
def cWsuccess : World :=
  ⟨0, "https://ctrl.lunes.host/dashboard", 0, 0, none, none, true⟩

/-- A concrete page oracle showing the human-verification challenge. -/
def cWchal : World :=
  ⟨1, "https://ctrl.lunes.host/auth/login", 0, 0, none, none, true⟩

/-- A concrete page oracle where submission stays on the login page and a
locale-tolerant error marker is present. -/
def cWfail : World :=
  ⟨0, "https://ctrl.lunes.host/auth/login", 0, 1, some "Invalid credentials", none, true⟩

/-- A concrete page oracle whose sixth awaited operation rejects
mid-workflow. -/
def cWthrow : World :=
  ⟨0, "https://ctrl.lunes.host/auth/login", 0, 0, none, some 5, true⟩

/-- Relation between run states that agree on everything except the
trace: used to show that the notifier oracle can influence only the
trace, never the control flow or the exit code. -/
def StR (s t : RunSt) : Prop :=
  s.counter = t.counter ∧ s.files = t.files ∧ s.exit = t.exit

/-- Lift of `StR` to outcomes: same constructor, `StR`-related states,
and equal exception messages. -/
def OutR : Outcome → Outcome → Prop
  | .done s, .done t => StR s t
  | .thrown s m, .thrown t m2 => StR s t ∧ m = m2
  | _, _ => False

/-! ### Generic trace lemmas -/

theorem filterMap_toAct_map (l : List Act) :
    (l.map Event.act).filterMap Event.toAct? = l := by
  induction l with
  | nil => rfl
  | cons a as ih =>
    rw [List.map_cons, List.filterMap_cons]
    simp only [Event.toAct?]
    rw [ih]

theorem actsOf_run (l : List Act) :
    actsOf (l.map Event.act ++ [Event.closeContext, Event.closeBrowser]) = l := by
  unfold actsOf
  rw [List.filterMap_append, filterMap_toAct_map]
  simp [Event.toAct?]

theorem actsOf_nil : actsOf [] = [] := rfl

theorem actsOf_cons_act (a : Act) (tr : List Event) :
    actsOf (Event.act a :: tr) = a :: actsOf tr := rfl

theorem actsOf_cons_cc (tr : List Event) :
    actsOf (Event.closeContext :: tr) = actsOf tr := rfl

theorem actsOf_cons_cb (tr : List Event) :
    actsOf (Event.closeBrowser :: tr) = actsOf tr := rfl

/-- The notifier's effect chunk inside a trace, seen through `actsOf`. -/
theorem actsOf_map_tg (l : List TEffect) (tr : List Event) :
    actsOf (l.map (Event.act ∘ Act.tg) ++ tr) = l.map Act.tg ++ actsOf tr := by
  induction l with
  | nil => rfl
  | cons t ts ih =>
    rw [List.map_cons, List.cons_append]
    show actsOf (Event.act (Act.tg t) :: (ts.map (Event.act ∘ Act.tg) ++ tr)) = _
    rw [actsOf_cons_act, ih, List.map_cons, List.cons_append]

/-- The notifier's effect chunk inside a trace, seen through `coreActsOf`,
vanishes. -/
theorem coreActsOf_map_tg (l : List TEffect) (tr : List Event) :
    coreActsOf (l.map (Event.act ∘ Act.tg) ++ tr) = coreActsOf tr := by
  induction l with
  | nil => rfl
  | cons t ts ih => simpa [coreActsOf] using ih

theorem coreActsOf_eq_filter (tr : List Event) :
    coreActsOf tr = (actsOf tr).filter (fun x => !x.isTg) := by
  induction tr with
  | nil => rfl
  | cons e tr ih =>
    cases e with
    | act a => cases a <;> simp [coreActsOf, actsOf_cons_act, Act.isTg, ih]
    | closeContext => simp [coreActsOf, actsOf_cons_cc, ih]
    | closeBrowser => simp [coreActsOf, actsOf_cons_cb, ih]

theorem shotPath_map_tg (l : List TEffect) :
    (l.map Act.tg).filterMap Act.shotPath? = [] := by
  induction l with
  | nil => rfl
  | cons e es ih => simp [Act.shotPath?, ih]

theorem notifyArgs_map_tg (l : List TEffect) :
    (l.map Act.tg).filterMap Act.notifyArgs? = [] := by
  induction l with
  | nil => rfl
  | cons e es ih => simp [Act.notifyArgs?, ih]

theorem count_closeContext_map (l : List Act) :
    (l.map Event.act).count Event.closeContext = 0 := by
  induction l with
  | nil => rfl
  | cons a as ih => simp [List.count_cons, ih]

theorem count_closeBrowser_map (l : List Act) :
    (l.map Event.act).count Event.closeBrowser = 0 := by
  induction l with
  | nil => rfl
  | cons a as ih => simp [List.count_cons, ih]

theorem shotsOf_eq_core (tr : List Event) :
    shotsOf tr = (coreActsOf tr).filterMap Act.shotPath? := by
  unfold shotsOf
  rw [coreActsOf_eq_filter]
  induction actsOf tr with
  | nil => rfl
  | cons a as ih =>
    cases a <;> simp [Act.shotPath?, Act.isTg, ih]

theorem notifiesOf_eq_core (tr : List Event) :
    notifiesOf tr = (coreActsOf tr).filterMap Act.notifyArgs? := by
  unfold notifiesOf
  rw [coreActsOf_eq_filter]
  induction actsOf tr with
  | nil => rfl
  | cons a as ih =>
    cases a <;> simp [Act.notifyArgs?, Act.isTg, ih]

theorem mem_actsOf_of_core (a : Act) (tr : List Event)
    (h : a.isTg = false) : a ∈ actsOf tr ↔ a ∈ coreActsOf tr := by
  rw [coreActsOf_eq_filter, List.mem_filter]
  simp [h]

/-! ### Path evaluation lemmas -/

theorem run_success_eval (e : EnvVars) (w : World) (nw : NotifyWorld)
    (hu : falsyS e.lunesUsername = false) (hp : falsyS e.lunesPassword = false)
    (hch : w.challengeCount = 0) (hfa : w.failAt = none)
    (hs : stillOnLogin w.urlAfterSubmit = false ∨ 0 < w.successHintCount) :
    runExit e w nw = 0 ∧ coreActsOf (runTrace e w nw) = successCoreList e w := by
  rcases hs with hs | hs <;>
    constructor <;>
    simp [runExit, runTrace, runMain, mainTry, formAndSubmit, afterSubmit,
      successBranch, failureBranch, challengeBranch, fallibleOp, notifyOp,
      sleepOp, setExitOp, settle, initSt, Outcome.andThen, hu, hp, hch, hfa,
      hs, coreActsOf, coreActsOf_map_tg, successCoreList]

theorem run_failure_eval (e : EnvVars) (w : World) (nw : NotifyWorld)
    (hu : falsyS e.lunesUsername = false) (hp : falsyS e.lunesPassword = false)
    (hch : w.challengeCount = 0) (hfa : w.failAt = none)
    (hl : stillOnLogin w.urlAfterSubmit = true) (hh : w.successHintCount = 0) :
    runExit e w nw = 1 ∧ coreActsOf (runTrace e w nw) = failureCoreList e w := by
  constructor <;>
    simp [runExit, runTrace, runMain, mainTry, formAndSubmit, afterSubmit,
      successBranch, failureBranch, fallibleOp, notifyOp, sleepOp, setExitOp,
      settle, initSt, Outcome.andThen, hu, hp, hch, hfa, hl, hh,
      coreActsOf, coreActsOf_map_tg, failureCoreList]

theorem run_challenge_eval (e : EnvVars) (w : World) (nw : NotifyWorld)
    (hu : falsyS e.lunesUsername = false) (hp : falsyS e.lunesPassword = false)
    (hch : 0 < w.challengeCount) (hfa : w.failAt = none) :
    runExit e w nw = 2 ∧ coreActsOf (runTrace e w nw) = challengeCoreList := by
  constructor <;>
    simp [runExit, runTrace, runMain, mainTry, challengeBranch, fallibleOp,
      notifyOp, setExitOp, settle, initSt, Outcome.andThen, hu, hp, hch, hfa,
      coreActsOf, coreActsOf_map_tg, challengeCoreList]

/-! ### Notifier-independence lemmas

The notifier oracle `NotifyWorld` can influence only the trace of a run,
never the control flow, the files, the step counter or the exit code. -/

theorem stR_refl (s : RunSt) : StR s s := ⟨rfl, rfl, rfl⟩

theorem andThen_rel {o o2 : Outcome} {f f2 : RunSt → Outcome}
    (h : OutR o o2) (hf : ∀ s t, StR s t → OutR (f s) (f2 t)) :
    OutR (o.andThen f) (o2.andThen f2) := by
  cases o with
  | done s =>
    cases o2 with
    | done t => exact hf s t h
    | thrown t m => exact h.elim
  | thrown s m =>
    cases o2 with
    | done t => exact h.elim
    | thrown t m2 => exact h

theorem fallibleOp_rel {w : World} {a : Option Act} {fi : Option String}
    {s t : RunSt} (h : StR s t) :
    OutR (fallibleOp w a fi s) (fallibleOp w a fi t) := by
  obtain ⟨hc, hf, he⟩ := h
  unfold fallibleOp
  rw [hc]
  by_cases hcond : w.failAt = some t.counter <;>
    simp [hcond, OutR, StR, hf, he]

theorem notifyOp_rel {nw nw2 : NotifyWorld} {ok : Bool} {stage msg : String}
    {sp : Option String} {s t : RunSt} (h : StR s t) :
    OutR (notifyOp nw ok stage msg sp s) (notifyOp nw2 ok stage msg sp t) := by
  obtain ⟨hc, hf, he⟩ := h
  exact ⟨hc, hf, he⟩

theorem sleepOp_rel {ms : Nat} {s t : RunSt} (h : StR s t) :
    OutR (sleepOp ms s) (sleepOp ms t) := by
  obtain ⟨hc, hf, he⟩ := h
  exact ⟨hc, hf, he⟩

theorem setExitOp_rel {n : Nat} {s t : RunSt} (h : StR s t) :
    OutR (setExitOp n s) (setExitOp n t) := by
  obtain ⟨hc, hf, he⟩ := h
  exact ⟨hc, hf, rfl⟩

theorem challengeBranch_rel {w : World} {nw nw2 : NotifyWorld} {s t : RunSt}
    (h : StR s t) : OutR (challengeBranch w nw s) (challengeBranch w nw2 t) := by
  unfold challengeBranch
  exact andThen_rel (fallibleOp_rel h) fun s t h =>
    andThen_rel (notifyOp_rel h) fun s t h =>
    setExitOp_rel h

theorem successBranch_rel {url : String} {w : World} {nw nw2 : NotifyWorld}
    {s t : RunSt} (h : StR s t) :
    OutR (successBranch url w nw s) (successBranch url w nw2 t) := by
  unfold successBranch
  exact andThen_rel (notifyOp_rel h) fun s t h =>
    andThen_rel (fallibleOp_rel h) fun s t h =>
    andThen_rel (fallibleOp_rel h) fun s t h =>
    andThen_rel (fallibleOp_rel h) fun s t h =>
    andThen_rel (fallibleOp_rel h) fun s t h =>
    andThen_rel (notifyOp_rel h) fun s t h =>
    andThen_rel (fallibleOp_rel h) fun s t h =>
    andThen_rel (fallibleOp_rel h) fun s t h =>
    andThen_rel (fallibleOp_rel h) fun s t h =>
    andThen_rel (fallibleOp_rel h) fun s t h =>
    andThen_rel (fallibleOp_rel h) fun s t h =>
    andThen_rel (notifyOp_rel h) fun s t h =>
    andThen_rel (sleepOp_rel h) fun s t h =>
    andThen_rel (fallibleOp_rel h) fun s t h =>
    andThen_rel (fallibleOp_rel h) fun s t h =>
    andThen_rel (fallibleOp_rel h) fun s t h =>
    andThen_rel (sleepOp_rel h) fun s t h =>
    andThen_rel (fallibleOp_rel h) fun s t h =>
    andThen_rel (notifyOp_rel h) fun s t h =>
    setExitOp_rel h

theorem failureBranch_rel {w : World} {nw nw2 : NotifyWorld} {s t : RunSt}
    (h : StR s t) : OutR (failureBranch w nw s) (failureBranch w nw2 t) := by
  unfold failureBranch
  exact andThen_rel (fallibleOp_rel h) fun s t h =>
    andThen_rel (notifyOp_rel h) fun s t h =>
    setExitOp_rel h

theorem afterSubmit_rel {w : World} {nw nw2 : NotifyWorld} {s t : RunSt}
    (h : StR s t) : OutR (afterSubmit w nw s) (afterSubmit w nw2 t) := by
  unfold afterSubmit
  refine andThen_rel (fallibleOp_rel h) fun s t h =>
    andThen_rel (fallibleOp_rel h) fun s t h => ?_
  by_cases hcond : stillOnLogin w.urlAfterSubmit = false ∨ 0 < w.successHintCount
  · rw [if_pos hcond, if_pos hcond]
    exact successBranch_rel h
  · rw [if_neg hcond, if_neg hcond]
    exact failureBranch_rel h

theorem formAndSubmit_rel {u p : String} {w : World} {nw nw2 : NotifyWorld}
    {s t : RunSt} (h : StR s t) :
    OutR (formAndSubmit u p w nw s) (formAndSubmit u p w nw2 t) := by
  unfold formAndSubmit
  exact andThen_rel (fallibleOp_rel h) fun s t h =>
    andThen_rel (fallibleOp_rel h) fun s t h =>
    andThen_rel (fallibleOp_rel h) fun s t h =>
    andThen_rel (fallibleOp_rel h) fun s t h =>
    andThen_rel (fallibleOp_rel h) fun s t h =>
    andThen_rel (fallibleOp_rel h) fun s t h =>
    andThen_rel (fallibleOp_rel h) fun s t h =>
    afterSubmit_rel h

theorem mainTry_rel {u p : String} {w : World} {nw nw2 : NotifyWorld}
    {s t : RunSt} (h : StR s t) :
    OutR (mainTry u p w nw s) (mainTry u p w nw2 t) := by
  unfold mainTry
  refine andThen_rel (fallibleOp_rel h) fun s t h =>
    andThen_rel (fallibleOp_rel h) fun s t h => ?_
  by_cases hcond : 0 < w.challengeCount
  · rw [if_pos hcond, if_pos hcond]
    exact challengeBranch_rel h
  · rw [if_neg hcond, if_neg hcond]
    exact formAndSubmit_rel h

theorem catchHandler_exit (w : World) (nw : NotifyWorld) (m : String)
    (s : RunSt) : (catchHandler w nw m s).exit = some 1 := rfl

/-- The exit code of a run does not depend on the notifier oracle. -/
theorem runExit_nw_indep (e : EnvVars) (w : World) (nw nw2 : NotifyWorld) :
    runExit e w nw = runExit e w nw2 := by
  unfold runExit runMain
  by_cases hcred : (falsyS e.lunesUsername || falsyS e.lunesPassword) = true
  · rw [if_pos hcred, if_pos hcred]
  · rw [if_neg hcred, if_neg hcred]
    have h := @mainTry_rel (e.lunesUsername.getD "") (e.lunesPassword.getD "")
      w nw nw2 initSt initSt (stR_refl initSt)
    cases h1 : mainTry (e.lunesUsername.getD "") (e.lunesPassword.getD "")
        w nw initSt with
    | done s =>
      cases h2 : mainTry (e.lunesUsername.getD "") (e.lunesPassword.getD "")
          w nw2 initSt with
      | done t =>
        rw [h1, h2] at h
        have hst : StR s t := h
        simp [settle, hst.2.2]
      | thrown t m =>
        rw [h1, h2] at h
        exact h.elim
    | thrown s m =>
      cases h2 : mainTry (e.lunesUsername.getD "") (e.lunesPassword.getD "")
          w nw2 initSt with
      | done t =>
        rw [h1, h2] at h
        exact h.elim
      | thrown t m2 =>
        simp [settle, catchHandler_exit]

/-! ### Claims -/

/-- C1: after submission the run is judged successful exactly when at
least one of the two signals holds — the URL no longer matches the login
path, or the locale-tolerant logged-in marker is present (either alone
suffices) — and only then does the downstream server/console/restart/
command sequence begin (witnessed by the server-link click, its first
action). -/
theorem C1_success_iff_signals (e : EnvVars) (w : World) (nw : NotifyWorld)
    (hu : falsyS e.lunesUsername = false) (hp : falsyS e.lunesPassword = false)
    (hch : w.challengeCount = 0) (hfa : w.failAt = none) :
    (runExit e w nw = 0 ∧ Act.clickServer ∈ actsOf (runTrace e w nw)) ↔
      (stillOnLogin w.urlAfterSubmit = false ∨ 0 < w.successHintCount) := by
  by_cases hs : stillOnLogin w.urlAfterSubmit = false ∨ 0 < w.successHintCount
  · have h := run_success_eval e w nw hu hp hch hfa hs
    constructor
    · intro _
      exact hs
    · intro _
      refine ⟨h.1, ?_⟩
      rw [mem_actsOf_of_core Act.clickServer (runTrace e w nw) rfl, h.2]
      simp [successCoreList]
  · have hl : stillOnLogin w.urlAfterSubmit = true := by
      cases hb : stillOnLogin w.urlAfterSubmit
      · exact absurd (Or.inl hb) hs
      · rfl
    have hh : w.successHintCount = 0 := by
      by_contra hne
      exact hs (Or.inr (Nat.pos_of_ne_zero hne))
    have h := run_failure_eval e w nw hu hp hch hfa hl hh
    constructor
    · intro hc
      exact absurd (h.1.symm.trans hc.1) (by decide)
    · intro hss
      exact absurd hss hs

theorem C1_success_iff_signals_witness :
    (runExit cEnv cWsuccess cNW = 0 ∧
      Act.clickServer ∈ actsOf (runTrace cEnv cWsuccess cNW)) ↔
      (stillOnLogin cWsuccess.urlAfterSubmit = false ∨
        0 < cWsuccess.successHintCount) :=
  C1_success_iff_signals cEnv cWsuccess cNW rfl rfl rfl rfl

/-- C2: the claim is false on the code.  In the claimed scenario (both
credentials set, no challenge, fields present, submission redirects to a
non-login URL, no exception) the run exits 0 but writes FOUR screenshot
files, not five, and produces only four notifications: the console
milestone yields neither a screenshot nor a notification, and the restart
milestone yields a notification with no screenshot. -/
theorem C2_counterexample :
    falsyS cEnv.lunesUsername = false ∧ falsyS cEnv.lunesPassword = false ∧
    cWsuccess.challengeCount = 0 ∧ cWsuccess.failAt = none ∧
    stillOnLogin cWsuccess.urlAfterSubmit = false ∧
    runExit cEnv cWsuccess cNW = 0 ∧
    (shotsOf (runTrace cEnv cWsuccess cNW)).length = 4 ∧
    ¬(shotsOf (runTrace cEnv cWsuccess cNW)).length = 5 ∧
    (notifiesOf (runTrace cEnv cWsuccess cNW)).length = 4 := by
  decide

/-- C2 (amended): in the claimed scenario the process exits 0 and writes
FOUR screenshot files in sequence order (before-submit, after-submit,
server-page, command-executed); the login, server-page and command
milestones each produce a screenshot and a notification, the restart
milestone produces only a notification, and the console milestone
produces neither. -/
theorem C2_amended_milestones (e : EnvVars) (w : World) (nw : NotifyWorld)
    (hu : falsyS e.lunesUsername = false) (hp : falsyS e.lunesPassword = false)
    (hch : w.challengeCount = 0) (hfa : w.failAt = none)
    (hl : stillOnLogin w.urlAfterSubmit = false) :
    runExit e w nw = 0 ∧
    shotsOf (runTrace e w nw) =
      ["./02-before-submit.png", "./03-after-submit.png",
       "./04-server-page.png", "./05-command-executed.png"] ∧
    notifiesOf (runTrace e w nw) =
      [(true, "登录成功", "当前 URL：" ++ w.urlAfterSubmit, some "./03-after-submit.png"),
       (true, "进入服务器页面", "已成功打开服务器详情", some "./04-server-page.png"),
       (true, "点击 Restart", "VPS 正在重启", none),
       (true, "命令执行完成", "restart.sh 已执行", some "./05-command-executed.png")] := by
  have h := run_success_eval e w nw hu hp hch hfa (Or.inl hl)
  refine ⟨h.1, ?_, ?_⟩
  · rw [shotsOf_eq_core, h.2]
    simp [successCoreList, Act.shotPath?]
  · rw [notifiesOf_eq_core, h.2]
    simp [successCoreList, Act.notifyArgs?]

theorem C2_amended_milestones_witness :
    runExit cEnv cWsuccess cNW = 0 ∧
    shotsOf (runTrace cEnv cWsuccess cNW) =
      ["./02-before-submit.png", "./03-after-submit.png",
       "./04-server-page.png", "./05-command-executed.png"] ∧
    notifiesOf (runTrace cEnv cWsuccess cNW) =
      [(true, "登录成功", "当前 URL：https://ctrl.lunes.host/dashboard",
          some "./03-after-submit.png"),
       (true, "进入服务器页面", "已成功打开服务器详情", some "./04-server-page.png"),
       (true, "点击 Restart", "VPS 正在重启", none),
       (true, "命令执行完成", "restart.sh 已执行", some "./05-command-executed.png")] :=
  C2_amended_milestones cEnv cWsuccess cNW rfl rfl rfl rfl rfl

/-- C3: if the login page shows a bot/human-verification challenge
marker, an exception-free run captures the challenge screenshot, emits a
failure notification and exits with the distinct blocked code 2; and —
whatever operation may additionally reject — the credentials are never
filled into any input field. -/
theorem C3_challenge_blocked (e : EnvVars) (w : World) (nw : NotifyWorld)
    (hu : falsyS e.lunesUsername = false) (hp : falsyS e.lunesPassword = false)
    (hch : 0 < w.challengeCount) :
    (w.failAt = none →
      runExit e w nw = 2 ∧ coreActsOf (runTrace e w nw) = challengeCoreList) ∧
    ∀ f v, Act.fillField f v ∉ actsOf (runTrace e w nw) := by
  constructor
  · intro hfa
    exact run_challenge_eval e w nw hu hp hch hfa
  · intro f v
    cases hfa : w.failAt with
    | none =>
      have h := run_challenge_eval e w nw hu hp hch hfa
      rw [mem_actsOf_of_core (Act.fillField f v) (runTrace e w nw) rfl, h.2]
      simp [challengeCoreList]
    | some i =>
      by_cases h0 : i = 0
      · subst h0
        cases hek : w.errorShotOk <;>
          simp [runTrace, runMain, mainTry, challengeBranch, fallibleOp,
            notifyOp, setExitOp, settle, catchHandler, initSt, Outcome.andThen,
            hu, hp, hch, hfa, hek, actsOf_run, actsOf_nil,
            actsOf_cons_act, actsOf_cons_cc, actsOf_cons_cb, actsOf_map_tg]
      · by_cases h1 : i = 1
        · subst h1
          cases hek : w.errorShotOk <;>
            simp [runTrace, runMain, mainTry, challengeBranch, fallibleOp,
              notifyOp, setExitOp, settle, catchHandler, initSt, Outcome.andThen,
              hu, hp, hch, hfa, hek, actsOf_run, actsOf_nil,
            actsOf_cons_act, actsOf_cons_cc, actsOf_cons_cb, actsOf_map_tg]
        · by_cases h2 : i = 2
          · subst h2
            cases hek : w.errorShotOk <;>
              simp [runTrace, runMain, mainTry, challengeBranch, fallibleOp,
                notifyOp, setExitOp, settle, catchHandler, initSt, Outcome.andThen,
                hu, hp, hch, hfa, hek, actsOf_run, actsOf_nil,
            actsOf_cons_act, actsOf_cons_cc, actsOf_cons_cb, actsOf_map_tg]
          · simp [runTrace, runMain, mainTry, challengeBranch, fallibleOp,
              notifyOp, setExitOp, settle, catchHandler, initSt, Outcome.andThen,
              hu, hp, hch, hfa, h0, h1, h2, actsOf_run, actsOf_nil,
              actsOf_cons_act, actsOf_cons_cc, actsOf_cons_cb, actsOf_map_tg]

theorem C3_challenge_blocked_witness :
    (runExit cEnv cWchal cNW = 2 ∧
      coreActsOf (runTrace cEnv cWchal cNW) = challengeCoreList) ∧
    Act.fillField "username" "u" ∉ actsOf (runTrace cEnv cWchal cNW) :=
  ⟨(C3_challenge_blocked cEnv cWchal cNW rfl rfl (by decide)).1 rfl,
   (C3_challenge_blocked cEnv cWchal cNW rfl rfl (by decide)).2 "username" "u"⟩

/-- C4: when, after submission, the URL still matches the login path and
no success marker is present, the run sends exactly one failure
notification whose message comes from the best-effort error extraction
(`failureMsg` — the empty extraction, when the error locator matches
nothing or `innerText()` is unreadable, yields the generic still-on-login
text), exits with the generic failure code 1, and performs none of the
server, console, restart or command steps. -/
theorem C4_login_failure_path (e : EnvVars) (w : World) (nw : NotifyWorld)
    (hu : falsyS e.lunesUsername = false) (hp : falsyS e.lunesPassword = false)
    (hch : w.challengeCount = 0) (hfa : w.failAt = none)
    (hl : stillOnLogin w.urlAfterSubmit = true) (hh : w.successHintCount = 0) :
    runExit e w nw = 1 ∧
    notifiesOf (runTrace e w nw) =
      [(false, "登录失败", failureMsg w, some "./03-after-submit.png")] ∧
    Act.clickServer ∉ actsOf (runTrace e w nw) ∧
    Act.clickConsole ∉ actsOf (runTrace e w nw) ∧
    Act.clickRestart ∉ actsOf (runTrace e w nw) ∧
    Act.typeCommand "working properly" ∉ actsOf (runTrace e w nw) := by
  have h := run_failure_eval e w nw hu hp hch hfa hl hh
  refine ⟨h.1, ?_, ?_, ?_, ?_, ?_⟩
  · rw [notifiesOf_eq_core, h.2]
    simp [failureCoreList, Act.notifyArgs?]
  · rw [mem_actsOf_of_core Act.clickServer (runTrace e w nw) rfl, h.2]
    simp [failureCoreList]
  · rw [mem_actsOf_of_core Act.clickConsole (runTrace e w nw) rfl, h.2]
    simp [failureCoreList]
  · rw [mem_actsOf_of_core Act.clickRestart (runTrace e w nw) rfl, h.2]
    simp [failureCoreList]
  · rw [mem_actsOf_of_core (Act.typeCommand "working properly")
      (runTrace e w nw) rfl, h.2]
    simp [failureCoreList]

theorem C4_login_failure_path_witness :
    runExit cEnv cWfail cNW = 1 ∧
    notifiesOf (runTrace cEnv cWfail cNW) =
      [(false, "登录失败", "疑似失败（Invalid credentials）", some "./03-after-submit.png")] ∧
    Act.clickServer ∉ actsOf (runTrace cEnv cWfail cNW) :=
  ⟨(C4_login_failure_path cEnv cWfail cNW rfl rfl rfl rfl rfl rfl).1,
   (C4_login_failure_path cEnv cWfail cNW rfl rfl rfl rfl rfl rfl).2.1,
   (C4_login_failure_path cEnv cWfail cNW rfl rfl rfl rfl rfl rfl).2.2.1⟩

/-- C5: on every successful login (either success signal), the run's
runner-level action sequence is exactly the fixed list: open the server
page, screenshot and notify, click the console control, click the restart
control with an immediate notification (before the fixed sleep — the
system does not wait for restart completion), sleep 10000 ms, type the
fixed diagnostic command and submit it by the Enter keypress, sleep
5000 ms, then the completion screenshot and notification — no step
reordered or skipped. -/
theorem C5_downstream_sequence (e : EnvVars) (w : World) (nw : NotifyWorld)
    (hu : falsyS e.lunesUsername = false) (hp : falsyS e.lunesPassword = false)
    (hch : w.challengeCount = 0) (hfa : w.failAt = none)
    (hs : stillOnLogin w.urlAfterSubmit = false ∨ 0 < w.successHintCount) :
    runExit e w nw = 0 ∧ coreActsOf (runTrace e w nw) = successCoreList e w :=
  run_success_eval e w nw hu hp hch hfa hs

theorem C5_downstream_sequence_witness :
    runExit cEnv cWsuccess cNW = 0 ∧
    coreActsOf (runTrace cEnv cWsuccess cNW) = successCoreList cEnv cWsuccess :=
  C5_downstream_sequence cEnv cWsuccess cNW rfl rfl rfl rfl (Or.inl rfl)

/-- C6: every run that launches the browser (both credentials non-falsy)
closes the browser context and the browser exactly once each, as the
final two events of the trace, on every exit path — challenge exit,
success exit, login-failure exit, and any exception at any workflow step
(`w.failAt` arbitrary). -/
theorem C6_release_exactly_once (e : EnvVars) (w : World) (nw : NotifyWorld)
    (hu : falsyS e.lunesUsername = false) (hp : falsyS e.lunesPassword = false) :
    (runTrace e w nw).count Event.closeContext = 1 ∧
    (runTrace e w nw).count Event.closeBrowser = 1 ∧
    ∃ pre, runTrace e w nw = pre ++ [Event.closeContext, Event.closeBrowser] := by
  have htr : runTrace e w nw =
      (settle w nw (mainTry (e.lunesUsername.getD "") (e.lunesPassword.getD "")
        w nw initSt)).trace.map Event.act
        ++ [Event.closeContext, Event.closeBrowser] := by
    simp [runTrace, runMain, hu, hp]
  rw [htr]
  refine ⟨?_, ?_, ⟨_, rfl⟩⟩ <;>
    simp [List.count_append, count_closeContext_map, count_closeBrowser_map,
      List.count_cons]

theorem C6_release_exactly_once_witness :
    (runTrace cEnv cWthrow cNW).count Event.closeContext = 1 ∧
    (runTrace cEnv cWthrow cNW).count Event.closeBrowser = 1 :=
  ⟨(C6_release_exactly_once cEnv cWthrow cNW rfl rfl).1,
   (C6_release_exactly_once cEnv cWthrow cNW rfl rfl).2.1⟩

/-- C7: when either required credential environment variable is missing
or empty, `envOrThrow` throws before the browser is launched: the process
ends with code 1 and the trace is empty — no navigation, no screenshot,
no notifier invocation, no outbound call. -/
theorem C7_missing_credentials_abort (e : EnvVars) (w : World)
    (nw : NotifyWorld)
    (h : falsyS e.lunesUsername = true ∨ falsyS e.lunesPassword = true) :
    runMain e w nw = (1, []) := by
  rcases h with h | h <;> simp [runMain, h]

theorem C7_missing_credentials_abort_witness :
    runMain ⟨none, some "p"⟩ cWsuccess cNW = (1, []) :=
  C7_missing_credentials_abort ⟨none, some "p"⟩ cWsuccess cNW (Or.inl rfl)

/-- C8: every delivery failure is caught inside the notifier — whenever
the body rejects internally, `notifyTelegram` returns normally with the
error merely logged (`warnFail`), so the call never throws to the session
runner — and the runner's exit code is identical for every notifier
oracle, so no notifier failure can change it. -/
theorem C8_notifier_failures_contained :
    (∀ nw ok stage msg sp effs m,
        notifyBody nw ok stage msg sp = (effs, some m) →
        notifyTelegram nw ok stage msg sp = effs ++ [TEffect.warnFail m]) ∧
    (∀ e w nw nw2, runExit e w nw = runExit e w nw2) := by
  constructor
  · intro nw ok stage msg sp effs m h
    unfold notifyTelegram
    rw [h]
  · intro e w nw nw2
    exact runExit_nw_indep e w nw nw2

theorem C8_notifier_failures_contained_witness :
    notifyTelegram nwTextFail true "登录成功" "m" none =
      [TEffect.sendText "c" (composeText true "登录成功" "m" "T"),
       TEffect.warnFail "sendMessage failed"] :=
  C8_notifier_failures_contained.1 nwTextFail true "登录成功" "m" none
    [TEffect.sendText "c" (composeText true "登录成功" "m" "T")]
    "sendMessage failed" rfl

/-- C9 fails as stated: with the bot token present in the environment but
set to the empty string (and the chat id present and non-empty), the
source's truthiness check `!token` still skips delivery entirely — a
warning is logged and zero outbound calls are made — although the claim's
"otherwise" branch promises a text send whenever the variables are not
absent. -/
theorem C9_counterexample :
    nwEmptyToken.token = some "" ∧ nwEmptyToken.chatId = some "c" ∧
    notifyTelegram nwEmptyToken true "登录成功" "m" none = [TEffect.warnSkip] ∧
    outboundOf (notifyTelegram nwEmptyToken true "登录成功" "m" none) = [] := by
  refine ⟨rfl, rfl, rfl, rfl⟩

/-- C9 (amended): if the chat token or channel id is absent from the
environment OR set to the empty string, the notifier logs a local warning
and performs zero outbound calls; otherwise — provided the text send and
the screenshot read do not themselves fail — it sends the text message,
and sends the image as a second, separate call exactly when a screenshot
path was supplied and that file exists on disk, silently skipping the
image step when the file is missing. -/
theorem C9_notifier_delivery (nw : NotifyWorld) (ok : Bool)
    (stage msg : String) (sp : Option String) :
    ((falsyS nw.token || falsyS nw.chatId) = true →
      notifyTelegram nw ok stage msg sp = [TEffect.warnSkip]) ∧
    ((falsyS nw.token || falsyS nw.chatId) = false →
      nw.textSendFails = false → nw.readFileFails = false →
      outboundOf (notifyTelegram nw ok stage msg sp) =
        TEffect.sendText (nw.chatId.getD "") (composeText ok stage msg nw.now) ::
          (match sp with
           | some p =>
             if nw.fileExists p then
               [TEffect.sendPhoto (nw.chatId.getD "")
                 ("Lunes 自动操作截图（" ++ stage ++ "）")]
             else []
           | none => [])) := by
  constructor
  · intro hcred
    simp [notifyTelegram, notifyBody, hcred]
  · intro hcred htext hread
    cases sp with
    | none =>
      simp [notifyTelegram, notifyBody, hcred, htext, outboundOf,
        TEffect.isOutbound]
    | some p =>
      by_cases hex : nw.fileExists p
      · cases hph : nw.photoSendFails <;>
          simp [notifyTelegram, notifyBody, hcred, htext, hread, hex, hph,
            outboundOf, TEffect.isOutbound]
      · simp [notifyTelegram, notifyBody, hcred, htext, hex, outboundOf,
          TEffect.isOutbound]

theorem C9_notifier_delivery_witness :
    outboundOf (notifyTelegram nwPhotoOk true "登录成功" "m" (some "./x.png")) =
      [TEffect.sendText "c" (composeText true "登录成功" "m" "T"),
       TEffect.sendPhoto "c" "Lunes 自动操作截图（登录成功）"] :=
  (C9_notifier_delivery nwPhotoOk true "登录成功" "m" (some "./x.png")).2
    rfl rfl rfl

/-- C10: the image-send call happens only when the text-send call
completed without throwing — if `sendPhoto` appears among the effects,
the text send did not fail and the corresponding `sendText` is also among
the effects, so an image is never delivered without its text message. -/
theorem C10_photo_only_after_text (nw : NotifyWorld) (ok : Bool)
    (stage msg : String) (sp : Option String) (c cap : String)
    (h : TEffect.sendPhoto c cap ∈ notifyTelegram nw ok stage msg sp) :
    nw.textSendFails = false ∧
    TEffect.sendText (nw.chatId.getD "") (composeText ok stage msg nw.now) ∈
      notifyTelegram nw ok stage msg sp := by
  cases hcred : (falsyS nw.token || falsyS nw.chatId) with
  | true => simp [notifyTelegram, notifyBody, hcred] at h
  | false =>
    cases htf : nw.textSendFails with
    | true => simp [notifyTelegram, notifyBody, hcred, htf] at h
    | false =>
      refine ⟨rfl, ?_⟩
      cases sp with
      | none => simp [notifyTelegram, notifyBody, hcred, htf]
      | some p =>
        by_cases hex : nw.fileExists p
        · cases hr : nw.readFileFails with
          | true => simp [notifyTelegram, notifyBody, hcred, htf, hex, hr]
          | false =>
            cases hph : nw.photoSendFails <;>
              simp [notifyTelegram, notifyBody, hcred, htf, hex, hr, hph]
        · simp [notifyTelegram, notifyBody, hcred, htf, hex]

theorem C10_photo_only_after_text_witness :
    nwPhotoOk.textSendFails = false ∧
    TEffect.sendText "c" (composeText true "登录成功" "m" "T") ∈
      notifyTelegram nwPhotoOk true "登录成功" "m" (some "./x.png") :=
  C10_photo_only_after_text nwPhotoOk true "登录成功" "m" (some "./x.png")
    "c" "Lunes 自动操作截图（登录成功）" (by decide)
